import Mathlib

/-!
Verification of the KZG conformance-test harness in
`src/spec-tests/runners/kzg.rs` of the `ethereum-consensus` repository.

The harness drives the polynomial-commitment engine entry points
(`blob_to_kzg_commitment`, `compute_kzg_proof`, `verify_kzg_proof`,
`compute_blob_kzg_proof`, `verify_blob_kzg_proof`,
`verify_blob_kzg_proof_batch`) against named test vectors.  All claims
under scrutiny are about the harness's control flow: which combinations
of input-deserialization outcomes and expected outputs make a test pass,
fire an assertion, or hit an `unreachable!` / `todo!` panic.

The engine itself lives in the `ethereum_consensus` crate, outside the
harness file; it is therefore abstracted here as a record of functions
(`Engine`), and every theorem quantifies over it.  The wrapped value
types (`Blob`, `KzgCommitment`, `KzgProof`, `FieldElement`,
`KzgSettings`) are treated as opaque carriers with decidable equality,
since the harness only moves them around and compares them.
-/

namespace KzgHarness

/-- A blob: in the source, a fixed-length sequence of field elements.
The harness only passes blobs to the engine and never inspects them, so
the carrier is kept abstract as a byte list. -/
structure Blob where
  bytes : List Nat
deriving DecidableEq

/-- A KZG commitment: compressed G1 point encoding.  Opaque to the
harness except for equality comparison against expected outputs. -/
structure KzgCommitment where
  bytes : List Nat
deriving DecidableEq

/-- A KZG proof: same encoding family as `KzgCommitment`. -/
structure KzgProof where
  bytes : List Nat
deriving DecidableEq

/-- A scalar field element.  Opaque to the harness. -/
structure FieldElement where
  val : Nat
deriving DecidableEq

/-- The trusted setup handle (`KzgSettings`).  The harness never looks
inside it; it only threads it from `dispatch` into each runner. -/
structure KzgSettings where
  id : Nat
deriving DecidableEq

/-- `ProofAndEvaluation` as in
`ethereum_consensus::deneb::polynomial_commitments`: the result of
`compute_kzg_proof`, pairing the opening proof with the evaluation. -/
structure ProofAndEvaluation where
  proof : KzgProof
  evaluation : FieldElement
deriving DecidableEq

/-- The engine error type
(`ethereum_consensus::deneb::polynomial_commitments::Error`).  Its
definition is outside the harness file; the harness pattern-matches on
the `CKzg(..)` variant (wrapping the native c-kzg library's error code,
which the match leaves unconstrained) and treats every other variant
uniformly, so the model keeps `CKzg` with an abstract payload and lumps
the remaining variants into `Other`. -/
inductive PolynomialCommitmentsError where
  | CKzg (code : Nat)
  | Other (code : Nat)
deriving DecidableEq

/-- Outcome of running one harness runner on one test vector.  The Rust
runners either return `Ok(())` or diverge via a panicking macro; the
distinct panic sources are kept apart because the claims distinguish
them. -/
inductive RunOutcome where
  /-- the runner returned `Ok(())`: the test passes -/
  | ok
  /-- an `assert!` / `assert_eq!` fired -/
  | assertionFailure
  /-- `.unwrap()` was called on an `Err` value -/
  | unwrapPanic
  /-- the catch-all match arm `_ => unreachable!("not possible")` -/
  | unreachablePanic
  /-- the `todo!()` in the batch runner -/
  | todoPanic
  /-- `dispatch`'s `handler => unreachable!("no tests for {handler}")` -/
  | noTestsPanic
deriving DecidableEq

/-- The engine entry points imported by the harness.  `dispatch` and the
runners are parametric in this record: the claims hold for every
possible engine behaviour.  `kzg_settings_from_json` is the result of
loading the fixed `TRUSTED_SETUP_JSON` constant. -/
structure Engine where
  kzg_settings_from_json : Except PolynomialCommitmentsError KzgSettings
  blob_to_kzg_commitment :
    Blob → KzgSettings → Except PolynomialCommitmentsError KzgCommitment
  compute_kzg_proof :
    Blob → FieldElement → KzgSettings →
      Except PolynomialCommitmentsError ProofAndEvaluation
  verify_kzg_proof :
    KzgCommitment → FieldElement → FieldElement → KzgProof → KzgSettings →
      Except PolynomialCommitmentsError Unit
  compute_blob_kzg_proof :
    Blob → KzgCommitment → KzgSettings →
      Except PolynomialCommitmentsError KzgProof
  verify_blob_kzg_proof :
    Blob → KzgCommitment → KzgProof → KzgSettings →
      Except PolynomialCommitmentsError Unit

/-- One parsed test vector, as seen by the runners after the YAML layer:
each named input field is recorded as the outcome of its
`serde_yaml::from_value` deserialization (`.ok v` for `Ok(v)`,
`.error ()` for `Err(_)`), and each possible `output` shape is the
already-unwrapped `Option` (`none` is the vector's explicit "no value"
marker).  A runner reads only the fields its operation uses. -/
structure TestCase where
  handler : String
  blob_result : Except Unit Blob
  commitment_result : Except Unit KzgCommitment
  proof_result : Except Unit KzgProof
  z_result : Except Unit FieldElement
  y_result : Except Unit FieldElement
  output_commitment : Option KzgCommitment
  output_proof_and_evaluation : Option (KzgProof × FieldElement)
  output_proof : Option KzgProof
  output_bool : Option Bool

/-- Embedding of `run_blob_to_kzg_commitment_test` (kzg.rs lines 29-63):
match on the blob deserialization result and the parsed output. -/
def run_blob_to_kzg_commitment_test (E : Engine) (kzg_settings : KzgSettings)
    (input_blob_result : Except Unit Blob)
    (output : Option KzgCommitment) : RunOutcome :=
  match input_blob_result, output with
  | .ok blob, some expected_commitment =>
    match E.blob_to_kzg_commitment blob kzg_settings with
    | .ok kzg_commitment =>
      if kzg_commitment = expected_commitment then .ok else .assertionFailure
    | .error _ => .unwrapPanic
  | .error _, none => .ok
  | .ok blob, none =>
    match E.blob_to_kzg_commitment blob kzg_settings with
    | .error (.CKzg _) => .ok
    | _ => .assertionFailure
  | _, _ => .unreachablePanic

/-- Embedding of `run_compute_kzg_proof_test` (kzg.rs lines 65-107). -/
def run_compute_kzg_proof_test (E : Engine) (kzg_settings : KzgSettings)
    (input_blob_result : Except Unit Blob)
    (input_z_result : Except Unit FieldElement)
    (output : Option (KzgProof × FieldElement)) : RunOutcome :=
  match input_blob_result, input_z_result, output with
  | .ok blob, .ok z, some expected =>
    match E.compute_kzg_proof blob z kzg_settings with
    | .ok proof_and_evaluation =>
      if proof_and_evaluation = ⟨expected.1, expected.2⟩ then .ok
      else .assertionFailure
    | .error _ => .unwrapPanic
  | .ok blob, .ok z, none =>
    match E.compute_kzg_proof blob z kzg_settings with
    | .error (.CKzg _) => .ok
    | _ => .assertionFailure
  | .error _, .ok _, none => .ok
  | .ok _, .error _, none => .ok
  | _, _, _ => .unreachablePanic

/-- Embedding of `run_verify_kzg_proof_test` (kzg.rs lines 109-174):
each input is checked in sequence, with an early `return Ok(())` (after
`assert!(output.is_none())`) on the first deserialization failure; only
when all four inputs deserialize is `verify_kzg_proof` called. -/
def run_verify_kzg_proof_test (E : Engine) (kzg_settings : KzgSettings)
    (commitment_result : Except Unit KzgCommitment)
    (z_result : Except Unit FieldElement)
    (y_result : Except Unit FieldElement)
    (proof_result : Except Unit KzgProof)
    (output : Option Bool) : RunOutcome :=
  match commitment_result with
  | .error _ => if output.isNone then .ok else .assertionFailure
  | .ok commitment =>
    match z_result with
    | .error _ => if output.isNone then .ok else .assertionFailure
    | .ok z =>
      match y_result with
      | .error _ => if output.isNone then .ok else .assertionFailure
      | .ok y =>
        match proof_result with
        | .error _ => if output.isNone then .ok else .assertionFailure
        | .ok proof =>
          let result := E.verify_kzg_proof commitment z y proof kzg_settings
          match output with
          | some expected_validity =>
            if expected_validity then
              match result with
              | .ok _ => .ok
              | .error _ => .assertionFailure
            else
              match result with
              | .ok _ => .assertionFailure
              | .error _ => .ok
          | none =>
            -- the source calls `verify_kzg_proof` a second time here
            let result := E.verify_kzg_proof commitment z y proof kzg_settings
            match result with
            | .ok _ => .assertionFailure
            | .error _ => .ok

/-- Embedding of `run_compute_blob_kzg_proof_test` (kzg.rs lines
176-211).  Unlike the verify-blob runner, its match lists all three
single- and double-failure deserialization arms for a `none` output. -/
def run_compute_blob_kzg_proof_test (E : Engine) (kzg_settings : KzgSettings)
    (input_blob_result : Except Unit Blob)
    (input_commitment_result : Except Unit KzgCommitment)
    (output : Option KzgProof) : RunOutcome :=
  match input_blob_result, input_commitment_result, output with
  | .ok blob, .ok commitment, some expected_proof =>
    match E.compute_blob_kzg_proof blob commitment kzg_settings with
    | .ok proof =>
      if proof = expected_proof then .ok else .assertionFailure
    | .error _ => .unwrapPanic
  | .ok blob, .ok commitment, none =>
    match E.compute_blob_kzg_proof blob commitment kzg_settings with
    | .error (.CKzg _) => .ok
    | _ => .assertionFailure
  | .error _, .ok _, none => .ok
  | .ok _, .error _, none => .ok
  | .error _, .error _, none => .ok
  | _, _, _ => .unreachablePanic

/-- Embedding of `run_verify_blob_kzg_proof_test` (kzg.rs lines
213-255).  In the all-inputs-deserialize, concrete-expected-output arm
the bound `_expected_validity` is never consulted; only
`assert!(result.is_ok())` runs.  Only the three single-failure arms are
listed for a `none` output before the catch-all `unreachable!`. -/
def run_verify_blob_kzg_proof_test (E : Engine) (kzg_settings : KzgSettings)
    (input_blob_result : Except Unit Blob)
    (input_commitment_result : Except Unit KzgCommitment)
    (input_proof_result : Except Unit KzgProof)
    (output : Option Bool) : RunOutcome :=
  match input_blob_result, input_commitment_result, input_proof_result,
      output with
  | .ok blob, .ok commitment, .ok proof, some _expected_validity =>
    match E.verify_blob_kzg_proof blob commitment proof kzg_settings with
    | .ok _ => .ok
    | .error _ => .assertionFailure
  | .ok blob, .ok commitment, .ok proof, none =>
    match E.verify_blob_kzg_proof blob commitment proof kzg_settings with
    | .error (.CKzg _) => .ok
    | _ => .assertionFailure
  | .error _, .ok _, .ok _, none => .ok
  | .ok _, .error _, .ok _, none => .ok
  | .ok _, .ok _, .error _, none => .ok
  | _, _, _, _ => .unreachablePanic

/-- Embedding of `run_verify_blob_kzg_proof_batch_test` (kzg.rs lines
257-264): the body binds `_path` and immediately hits `todo!()`, for
every input. -/
def run_verify_blob_kzg_proof_batch_test (_E : Engine)
    (_kzg_settings : KzgSettings) (_test : TestCase) : RunOutcome :=
  .todoPanic

/-- Embedding of `dispatch` (kzg.rs lines 15-27): every call first
evaluates `kzg_settings_from_json(TRUSTED_SETUP_JSON)?` — propagating a
load failure as `Err` — and only then matches on the handler name to
select a runner, handing it a reference to the freshly built settings. -/
def dispatch (E : Engine) (test : TestCase) :
    Except PolynomialCommitmentsError RunOutcome :=
  match E.kzg_settings_from_json with
  | .error e => .error e
  | .ok kzg_settings =>
    .ok <|
      match test.handler with
      | "blob_to_kzg_commitment" =>
        run_blob_to_kzg_commitment_test E kzg_settings
          test.blob_result test.output_commitment
      | "compute_kzg_proof" =>
        run_compute_kzg_proof_test E kzg_settings
          test.blob_result test.z_result test.output_proof_and_evaluation
      | "verify_kzg_proof" =>
        run_verify_kzg_proof_test E kzg_settings
          test.commitment_result test.z_result test.y_result
          test.proof_result test.output_bool
      | "compute_blob_kzg_proof" =>
        run_compute_blob_kzg_proof_test E kzg_settings
          test.blob_result test.commitment_result test.output_proof
      | "verify_blob_kzg_proof" =>
        run_verify_blob_kzg_proof_test E kzg_settings
          test.blob_result test.commitment_result test.proof_result
          test.output_bool
      | "verify_blob_kzg_proof_batch" =>
        run_verify_blob_kzg_proof_batch_test E kzg_settings test
      | _ => .noTestsPanic

/-- Observable events of one `dispatch` call, for the trusted-setup
lifecycle claims: `loadSettings` marks an evaluation of
`kzg_settings_from_json`, `runHandler` the hand-off to a runner. -/
inductive DispatchEvent where
  | loadSettings
  | runHandler (handler : String)
deriving DecidableEq

/-- Event trace of one `dispatch` call, read off kzg.rs lines 15-27: the
settings load happens unconditionally at entry; on load failure the `?`
operator returns before any runner executes. -/
def dispatchEvents (E : Engine) (test : TestCase) : List DispatchEvent :=
  match E.kzg_settings_from_json with
  | .error _ => [.loadSettings]
  | .ok _ => [.loadSettings, .runHandler test.handler]

/-- Event trace of running a whole suite of test cases: the harness
calls `dispatch` once per test case. -/
def suiteEvents (E : Engine) : List TestCase → List DispatchEvent
  | [] => []
  | t :: rest => dispatchEvents E t ++ suiteEvents E rest

/-- Number of trusted-setup loads in a trace. -/
def settingsLoadCount : List DispatchEvent → Nat
  | [] => 0
  | .loadSettings :: rest => settingsLoadCount rest + 1
  | .runHandler _ :: rest => settingsLoadCount rest

/-- A concrete engine instance used by witnesses and counterexamples:
the setup loads successfully and every operation reports a c-kzg error. -/
def trivialSettings : KzgSettings := ⟨0⟩

/-- See `trivialSettings`. -/
def trivialEngine : Engine :=
  ⟨.ok trivialSettings,
   fun _ _ => .error (.CKzg 0),
   fun _ _ _ => .error (.CKzg 0),
   fun _ _ _ _ _ => .error (.CKzg 0),
   fun _ _ _ => .error (.CKzg 0),
   fun _ _ _ _ => .error (.CKzg 0)⟩

/-- A concrete parsed test vector for the `blob_to_kzg_commitment`
handler whose blob fails to deserialize and whose output is the
"no value" marker. -/
def blobFailureCase : TestCase :=
  ⟨"blob_to_kzg_commitment", .error (), .error (), .error (), .error (),
   .error (), none, none, none, none⟩

/-- A concrete parsed test vector for the batch handler. -/
def batchCase : TestCase :=
  ⟨"verify_blob_kzg_proof_batch", .error (), .error (), .error (),
   .error (), .error (), none, none, none, none⟩

/-- Claim C1: for every `verify_blob_kzg_proof` test vector whose three
inputs all deserialize successfully and whose output is a concrete
expected boolean, the harness asserts only that the call to
`verify_blob_kzg_proof` returned without error: the outcome is identical
for expected `true` and expected `false`, and the test passes exactly
when the call returns `Ok`, the vector's expected boolean never being
compared against the actual verification result. -/
theorem verify_blob_positive_ignores_expected_bool (E : Engine)
    (s : KzgSettings) (blob : Blob) (commitment : KzgCommitment)
    (proof : KzgProof) (b : Bool) :
    run_verify_blob_kzg_proof_test E s (.ok blob) (.ok commitment)
        (.ok proof) (some b)
      = run_verify_blob_kzg_proof_test E s (.ok blob) (.ok commitment)
          (.ok proof) (some (!b))
    ∧ (run_verify_blob_kzg_proof_test E s (.ok blob) (.ok commitment)
          (.ok proof) (some b) = .ok
        ↔ E.verify_blob_kzg_proof blob commitment proof s = .ok ()) := by
  refine ⟨rfl, ?_⟩
  cases h : E.verify_blob_kzg_proof blob commitment proof s with
  | ok u => cases u; simp [run_verify_blob_kzg_proof_test, h]
  | error e => simp [run_verify_blob_kzg_proof_test, h]

/-- Claim C2: for every `verify_kzg_proof` test vector whose four inputs
all deserialize and whose output is a concrete expected boolean, the
harness treats failed verification as an error result: with expected
`true` the test passes exactly when the call returns `Ok`, with expected
`false` exactly when it does not return `Ok`, and in either case a
mismatch is an assertion failure. -/
theorem verify_kzg_expected_bool_checks_result_channel (E : Engine)
    (s : KzgSettings) (c : KzgCommitment) (z y : FieldElement)
    (p : KzgProof) :
    (run_verify_kzg_proof_test E s (.ok c) (.ok z) (.ok y) (.ok p)
          (some true) = .ok
      ↔ E.verify_kzg_proof c z y p s = .ok ())
    ∧ (run_verify_kzg_proof_test E s (.ok c) (.ok z) (.ok y) (.ok p)
          (some false) = .ok
      ↔ E.verify_kzg_proof c z y p s ≠ .ok ())
    ∧ ∀ b : Bool,
        run_verify_kzg_proof_test E s (.ok c) (.ok z) (.ok y) (.ok p)
            (some b) = .ok
        ∨ run_verify_kzg_proof_test E s (.ok c) (.ok z) (.ok y) (.ok p)
            (some b) = .assertionFailure := by
  cases h : E.verify_kzg_proof c z y p s with
  | ok u =>
    cases u
    refine ⟨by simp [run_verify_kzg_proof_test, h], by simp [run_verify_kzg_proof_test, h], ?_⟩
    intro b
    cases b <;> simp [run_verify_kzg_proof_test, h]
  | error e =>
    refine ⟨by simp [run_verify_kzg_proof_test, h], by simp [run_verify_kzg_proof_test, h], ?_⟩
    intro b
    cases b <;> simp [run_verify_kzg_proof_test, h]

/-- Claim C4: for every `blob_to_kzg_commitment`, `compute_kzg_proof`
and `compute_blob_kzg_proof` test vector whose inputs deserialize and
whose output is a concrete expected value, the test passes exactly when
the engine returned `Ok` of precisely that expected value — success with
a different value does not pass. -/
theorem compute_runners_check_exact_equality (E : Engine)
    (s : KzgSettings) :
    (∀ (blob : Blob) (expected : KzgCommitment),
      run_blob_to_kzg_commitment_test E s (.ok blob) (some expected) = .ok
        ↔ E.blob_to_kzg_commitment blob s = .ok expected)
    ∧ (∀ (blob : Blob) (z : FieldElement) (proof : KzgProof)
          (evaluation : FieldElement),
      run_compute_kzg_proof_test E s (.ok blob) (.ok z)
          (some (proof, evaluation)) = .ok
        ↔ E.compute_kzg_proof blob z s = .ok ⟨proof, evaluation⟩)
    ∧ (∀ (blob : Blob) (commitment : KzgCommitment) (expected : KzgProof),
      run_compute_blob_kzg_proof_test E s (.ok blob) (.ok commitment)
          (some expected) = .ok
        ↔ E.compute_blob_kzg_proof blob commitment s = .ok expected) := by
  refine ⟨?_, ?_, ?_⟩
  · intro blob expected
    cases h : E.blob_to_kzg_commitment blob s with
    | ok c =>
      by_cases hc : c = expected <;>
        simp [run_blob_to_kzg_commitment_test, h, hc]
    | error e => simp [run_blob_to_kzg_commitment_test, h]
  · intro blob z proof evaluation
    cases h : E.compute_kzg_proof blob z s with
    | ok pae =>
      by_cases hc : pae = (⟨proof, evaluation⟩ : ProofAndEvaluation) <;>
        simp [run_compute_kzg_proof_test, h, hc]
    | error e => simp [run_compute_kzg_proof_test, h]
  · intro blob commitment expected
    cases h : E.compute_blob_kzg_proof blob commitment s with
    | ok pf =>
      by_cases hc : pf = expected <;>
        simp [run_compute_blob_kzg_proof_test, h, hc]
    | error e => simp [run_compute_blob_kzg_proof_test, h]

/-- Claim C8: in `run_verify_blob_kzg_proof_test`, every "no value"
vector in which two or more of the blob, commitment and proof inputs
fail to deserialize falls into the catch-all `unreachable!("not
possible")` arm, while `run_compute_blob_kzg_proof_test` passes the
analogous vector in which both of its inputs fail to deserialize. -/
theorem verify_blob_double_failure_panics (E : Engine) (s : KzgSettings) :
    (∀ p : KzgProof,
      run_verify_blob_kzg_proof_test E s (.error ()) (.error ()) (.ok p)
          none = .unreachablePanic)
    ∧ (∀ c : KzgCommitment,
      run_verify_blob_kzg_proof_test E s (.error ()) (.ok c) (.error ())
          none = .unreachablePanic)
    ∧ (∀ b : Blob,
      run_verify_blob_kzg_proof_test E s (.ok b) (.error ()) (.error ())
          none = .unreachablePanic)
    ∧ run_verify_blob_kzg_proof_test E s (.error ()) (.error ())
        (.error ()) none = .unreachablePanic
    ∧ run_compute_blob_kzg_proof_test E s (.error ()) (.error ()) none
        = .ok :=
  ⟨fun _ => rfl, fun _ => rfl, fun _ => rfl, rfl, rfl⟩

/-- Claim C9: in each of the four match-based runners, a vector carrying
a concrete expected output while at least one input fails to deserialize
falls through to the catch-all `unreachable!("not possible")` arm rather
than being reported as a test failure. -/
theorem positive_output_with_failed_input_panics (E : Engine)
    (s : KzgSettings) :
    (∀ out : KzgCommitment,
      run_blob_to_kzg_commitment_test E s (.error ()) (some out)
        = .unreachablePanic)
    ∧ (∀ (zr : Except Unit FieldElement) (out : KzgProof × FieldElement),
      run_compute_kzg_proof_test E s (.error ()) zr (some out)
        = .unreachablePanic)
    ∧ (∀ (br : Except Unit Blob) (out : KzgProof × FieldElement),
      run_compute_kzg_proof_test E s br (.error ()) (some out)
        = .unreachablePanic)
    ∧ (∀ (cr : Except Unit KzgCommitment) (out : KzgProof),
      run_compute_blob_kzg_proof_test E s (.error ()) cr (some out)
        = .unreachablePanic)
    ∧ (∀ (br : Except Unit Blob) (out : KzgProof),
      run_compute_blob_kzg_proof_test E s br (.error ()) (some out)
        = .unreachablePanic)
    ∧ (∀ (cr : Except Unit KzgCommitment) (pr : Except Unit KzgProof)
          (b : Bool),
      run_verify_blob_kzg_proof_test E s (.error ()) cr pr (some b)
        = .unreachablePanic)
    ∧ (∀ (br : Except Unit Blob) (pr : Except Unit KzgProof) (b : Bool),
      run_verify_blob_kzg_proof_test E s br (.error ()) pr (some b)
        = .unreachablePanic)
    ∧ (∀ (br : Except Unit Blob) (cr : Except Unit KzgCommitment)
          (b : Bool),
      run_verify_blob_kzg_proof_test E s br cr (.error ()) (some b)
        = .unreachablePanic) := by
  refine ⟨fun _ => rfl, ?_, ?_, ?_, ?_, ?_, ?_, ?_⟩
  · intro zr out; cases zr <;> rfl
  · intro br out; cases br <;> rfl
  · intro cr out; cases cr <;> rfl
  · intro br out; cases br <;> rfl
  · intro cr pr b; cases cr <;> cases pr <;> rfl
  · intro br pr b; cases br <;> cases pr <;> rfl
  · intro br cr b; cases br <;> cases cr <;> rfl

/-- Claim C3 counterexample: the claim says a "no value" vector with some
failing input passes without calling the engine, but a
`compute_kzg_proof` vector in which both the blob and `z` fail to
deserialize hits the catch-all `unreachable!("not possible")` arm
instead of passing. -/
theorem compute_kzg_double_failure_counterexample :
    run_compute_kzg_proof_test trivialEngine trivialSettings (.error ())
        (.error ()) none = .unreachablePanic
    ∧ run_compute_kzg_proof_test trivialEngine trivialSettings (.error ())
        (.error ()) none ≠ .ok :=
  ⟨rfl, by decide⟩

/-- Claim C3 (amended): for a "no value" vector, the
`blob_to_kzg_commitment` runner, and the `compute_kzg_proof` runner when
at most one input fails to deserialize, accept either failure branch —
a deserialization failure passes the test without consulting the engine
(the outcome is independent of the engine), and when all inputs
deserialize the test passes exactly when the engine reports an error of
the `CKzg` variant, with the wrapped failure code unconstrained; when
both `compute_kzg_proof` inputs fail to deserialize, the harness instead
panics via `unreachable!`. -/
theorem none_output_accepts_either_failure_branch (E : Engine)
    (s : KzgSettings) :
    run_blob_to_kzg_commitment_test E s (.error ()) none = .ok
    ∧ (∀ E2 : Engine,
        run_blob_to_kzg_commitment_test E s (.error ()) none
          = run_blob_to_kzg_commitment_test E2 s (.error ()) none)
    ∧ (∀ blob : Blob,
        run_blob_to_kzg_commitment_test E s (.ok blob) none = .ok
          ↔ ∃ code, E.blob_to_kzg_commitment blob s = .error (.CKzg code))
    ∧ (∀ z : FieldElement,
        run_compute_kzg_proof_test E s (.error ()) (.ok z) none = .ok)
    ∧ (∀ blob : Blob,
        run_compute_kzg_proof_test E s (.ok blob) (.error ()) none = .ok)
    ∧ (∀ (E2 : Engine) (zr : Except Unit FieldElement)
          (br : Except Unit Blob),
        run_compute_kzg_proof_test E s (.error ()) zr none
          = run_compute_kzg_proof_test E2 s (.error ()) zr none
        ∧ run_compute_kzg_proof_test E s br (.error ()) none
          = run_compute_kzg_proof_test E2 s br (.error ()) none)
    ∧ (∀ (blob : Blob) (z : FieldElement),
        run_compute_kzg_proof_test E s (.ok blob) (.ok z) none = .ok
          ↔ ∃ code, E.compute_kzg_proof blob z s = .error (.CKzg code))
    ∧ run_compute_kzg_proof_test E s (.error ()) (.error ()) none
        = .unreachablePanic := by
  refine ⟨rfl, fun _ => rfl, ?_, fun _ => rfl, fun _ => rfl, ?_, ?_, rfl⟩
  · intro blob
    cases h : E.blob_to_kzg_commitment blob s with
    | ok c => simp [run_blob_to_kzg_commitment_test, h]
    | error e =>
      cases e with
      | CKzg code => simp [run_blob_to_kzg_commitment_test, h]
      | Other code => simp [run_blob_to_kzg_commitment_test, h]
  · intro E2 zr br
    constructor
    · cases zr <;> rfl
    · cases br <;> rfl
  · intro blob z
    cases h : E.compute_kzg_proof blob z s with
    | ok pae => simp [run_compute_kzg_proof_test, h]
    | error e =>
      cases e with
      | CKzg code => simp [run_compute_kzg_proof_test, h]
      | Other code => simp [run_compute_kzg_proof_test, h]

/-- Claim C5: every test case whose handler name is
`verify_blob_kzg_proof_batch` is dispatched to
`run_verify_blob_kzg_proof_batch_test`, which hits `todo!()`
unconditionally — no check is performed for any input, the empty batch
included. -/
theorem batch_handler_hits_todo (E : Engine) (s : KzgSettings)
    (test : TestCase)
    (hload : E.kzg_settings_from_json = .ok s)
    (hhandler : test.handler = "verify_blob_kzg_proof_batch") :
    dispatch E test = .ok .todoPanic
    ∧ run_verify_blob_kzg_proof_batch_test E s test = .todoPanic := by
  constructor
  · obtain ⟨handler, br, cr, pr, zr, yr, oc, ope, op, ob⟩ := test
    simp only at hhandler
    subst hhandler
    unfold dispatch
    rw [hload]
    rfl
  · rfl

/-- Concrete instance of `batch_handler_hits_todo` at `trivialEngine`
and `batchCase`, discharging both hypotheses. -/
theorem batch_handler_hits_todo_witness :
    trivialEngine.kzg_settings_from_json = .ok trivialSettings
    ∧ batchCase.handler = "verify_blob_kzg_proof_batch"
    ∧ dispatch trivialEngine batchCase = .ok .todoPanic
    ∧ run_verify_blob_kzg_proof_batch_test trivialEngine trivialSettings
        batchCase = .todoPanic :=
  ⟨rfl, rfl,
   (batch_handler_hits_todo trivialEngine trivialSettings batchCase rfl
     rfl).1,
   (batch_handler_hits_todo trivialEngine trivialSettings batchCase rfl
     rfl).2⟩

/-- Claim C6: in `run_verify_kzg_proof_test`, if any one of the
commitment, `z`, `y` or proof inputs fails to deserialize, the runner
returns before calling `verify_kzg_proof` — the outcome is independent
of the engine — and it passes exactly when the vector expects no output
(the `assert!(output.is_none())` otherwise fires). -/
theorem verify_kzg_malformed_input_never_reaches_engine
    (E E2 : Engine) (s : KzgSettings)
    (cr : Except Unit KzgCommitment) (zr yr : Except Unit FieldElement)
    (pr : Except Unit KzgProof) (output : Option Bool)
    (h : (∃ e, cr = .error e) ∨ (∃ e, zr = .error e)
      ∨ (∃ e, yr = .error e) ∨ (∃ e, pr = .error e)) :
    run_verify_kzg_proof_test E s cr zr yr pr output
      = run_verify_kzg_proof_test E2 s cr zr yr pr output
    ∧ run_verify_kzg_proof_test E s cr zr yr pr output
      = (if output.isNone then .ok else .assertionFailure) := by
  cases cr with
  | error e => exact ⟨rfl, rfl⟩
  | ok c =>
    cases zr with
    | error e => exact ⟨rfl, rfl⟩
    | ok z =>
      cases yr with
      | error e => exact ⟨rfl, rfl⟩
      | ok y =>
        cases pr with
        | error e => exact ⟨rfl, rfl⟩
        | ok p =>
          rcases h with ⟨e, he⟩ | ⟨e, he⟩ | ⟨e, he⟩ | ⟨e, he⟩ <;>
            simp at he

/-- Concrete instance of
`verify_kzg_malformed_input_never_reaches_engine`: a malformed
commitment with a "no value" output passes without the engine being
consulted. -/
theorem verify_kzg_malformed_input_witness :
    ((∃ e, (Except.error () : Except Unit KzgCommitment) = .error e)
      ∨ (∃ e, (Except.ok ⟨0⟩ : Except Unit FieldElement) = .error e)
      ∨ (∃ e, (Except.ok ⟨0⟩ : Except Unit FieldElement) = .error e)
      ∨ (∃ e, (Except.ok ⟨[]⟩ : Except Unit KzgProof) = .error e))
    ∧ run_verify_kzg_proof_test trivialEngine trivialSettings (.error ())
        (.ok ⟨0⟩) (.ok ⟨0⟩) (.ok ⟨[]⟩) none = .ok :=
  ⟨Or.inl ⟨(), rfl⟩,
   (verify_kzg_malformed_input_never_reaches_engine trivialEngine
     trivialEngine trivialSettings (.error ()) (.ok ⟨0⟩) (.ok ⟨0⟩)
     (.ok ⟨[]⟩) none (Or.inl ⟨(), rfl⟩)).2⟩

/-- Claim C7 counterexample: the trusted setup is not loaded exactly
once across a test suite — a suite of two test cases performs two
`kzg_settings_from_json` loads, one per `dispatch` call. -/
theorem settings_reloaded_per_dispatch_counterexample :
    settingsLoadCount
        (suiteEvents trivialEngine [blobFailureCase, blobFailureCase]) = 2
    ∧ settingsLoadCount
        (suiteEvents trivialEngine [blobFailureCase, blobFailureCase])
        ≠ 1 :=
  ⟨rfl, by decide⟩

/-- Claim C7 (amended): the trusted setup is reconstructed from the
serialized setup on every test-case dispatch: each `dispatch` call
performs exactly one `kzg_settings_from_json` load, placed before its
test operation runs, and a suite of `n` test cases therefore performs
`n` loads rather than one global load shared across test cases. -/
theorem settings_loaded_once_per_dispatch (E : Engine) (s : KzgSettings)
    (tests : List TestCase)
    (hload : E.kzg_settings_from_json = .ok s) :
    settingsLoadCount (suiteEvents E tests) = tests.length
    ∧ ∀ t ∈ tests,
        dispatchEvents E t = [.loadSettings, .runHandler t.handler] := by
  have hev : ∀ t : TestCase,
      dispatchEvents E t = [.loadSettings, .runHandler t.handler] := by
    intro t
    unfold dispatchEvents
    rw [hload]
  constructor
  · induction tests with
    | nil => rfl
    | cons t rest ih =>
      show settingsLoadCount (dispatchEvents E t ++ suiteEvents E rest)
        = rest.length + 1
      rw [hev t]
      show settingsLoadCount (suiteEvents E rest) + 1 = rest.length + 1
      rw [ih]
  · intro t _
    exact hev t

/-- Concrete instance of `settings_loaded_once_per_dispatch` on a
one-vector suite. -/
theorem settings_loaded_once_per_dispatch_witness :
    trivialEngine.kzg_settings_from_json = .ok trivialSettings
    ∧ settingsLoadCount (suiteEvents trivialEngine [blobFailureCase]) = 1
    ∧ dispatchEvents trivialEngine blobFailureCase
        = [.loadSettings, .runHandler blobFailureCase.handler] :=
  ⟨rfl,
   (settings_loaded_once_per_dispatch trivialEngine trivialSettings
     [blobFailureCase] rfl).1,
   (settings_loaded_once_per_dispatch trivialEngine trivialSettings
     [blobFailureCase] rfl).2 blobFailureCase (List.mem_singleton.mpr rfl)⟩

end KzgHarness
